import Mathlib

/-!
Shallow embedding of the Rocky04/tinyusb X360 gamepad class driver, the
custom HID class driver and the Microsoft OS 1.0 responder, together with
theorems settling the specification claims.

Machine bytes are modelled as `Nat` values (always < 256 where produced by
the code); fixed-size C byte arrays are `List Nat`; nullable pointers are
`Option`.  The per-driver instance arrays are instantiated at one slot,
matching `CFG_APP_X360 = 1` from the configuration header; the lookup
helpers are the loop bodies of the C lookups specialised to that size.
-/

namespace TinyUsb

/-- Byte access into a byte list; reads out of range give 0 (the C code only
indexes inside the fixed-size arrays). -/
def byteAt (l : List Nat) (i : Nat) : Nat := l.getD i 0

/-- Low byte of a 16-bit value, `tu_u16_low`. -/
def tu_u16_low (v : Nat) : Nat := v % 256

/-- High byte of a 16-bit value, `tu_u16_high`. -/
def tu_u16_high (v : Nat) : Nat := (v / 256) % 256

/-- Control transfer stage constants (`CONTROL_STAGE_*`). -/
def CONTROL_STAGE_SETUP : Nat := 1

def CONTROL_STAGE_DATA : Nat := 2

def CONTROL_STAGE_ACK : Nat := 3

/-- Request type constants (`TUSB_REQ_TYPE_*`). -/
def TUSB_REQ_TYPE_STANDARD : Nat := 0

def TUSB_REQ_TYPE_CLASS : Nat := 1

def TUSB_REQ_TYPE_VENDOR : Nat := 2

/-- Request recipient constants (`TUSB_REQ_RCPT_*`). -/
def TUSB_REQ_RCPT_DEVICE : Nat := 0

def TUSB_REQ_RCPT_INTERFACE : Nat := 1

/-- Transfer result constant (`XFER_RESULT_SUCCESS`). -/
def XFER_RESULT_SUCCESS : Nat := 0

/-- The 8-byte USB SETUP packet, `tusb_control_request_t`, with the
`bmRequestType` bitfield split into its three subfields. -/
structure ControlRequest where
  direction : Nat
  reqType : Nat
  recipient : Nat
  bRequest : Nat
  wValue : Nat
  wIndex : Nat
  wLength : Nat
deriving Repr, DecidableEq

/-- Modelled from the spec: per-endpoint claim state of the host USB stack
(`usbd_edpt_claim` and friends live in the tinyusb core, which is not under
`src/`).  The glossary states the claim primitive guarantees at most one
outstanding transfer per endpoint and fails fast if busy. -/
structure EndpointState where
  claimed : Bool
  busy : Bool
deriving Repr, DecidableEq

/-- Modelled from the spec: `usbd_edpt_claim` succeeds exactly when the
endpoint is neither busy nor already claimed (the driver comment reads
"Claim endpoint, can only be done if not busy and not already claimed"). -/
def usbd_edpt_claim (s : EndpointState) : Bool × EndpointState :=
  if s.claimed || s.busy then (false, s) else (true, { s with claimed := true })

/-- A transfer handed to the host stack: buffer contents and length. -/
structure Transfer where
  buf : List Nat
  len : Nat
deriving Repr, DecidableEq

/-- Modelled from the spec: `usbd_edpt_xfer` enqueues a transfer on an
endpoint, releasing the claim and marking the endpoint busy until the
transfer-complete callback fires. -/
def usbd_edpt_xfer (buf : List Nat) (len : Nat) : Bool × EndpointState × Transfer :=
  (true, ⟨false, true⟩, ⟨buf, len⟩)

/-- Interface descriptor fields used by `x360d_open` and `chidd_open`
(`tusb_desc_interface_t`, 9 bytes on the wire). -/
structure InterfaceDesc where
  bInterfaceNumber : Nat
  bNumEndpoints : Nat
  bInterfaceClass : Nat
  bInterfaceSubClass : Nat
  bInterfaceProtocol : Nat
deriving Repr, DecidableEq

/-- Endpoint descriptor fields used when opening an endpoint pair
(`tusb_desc_endpoint_t`, 7 bytes on the wire); bit 7 of the address marks
the IN direction. -/
structure EndpointDesc where
  bEndpointAddress : Nat
  isInterrupt : Bool
deriving Repr, DecidableEq

/-- Modelled from the spec: `usbd_open_edpt_pair` (tinyusb core, not under
`src/`) opens `ep_count` endpoint descriptors, requires each to be of the
requested (interrupt) transfer type, and yields the OUT and IN endpoint
addresses found, 0 for a direction with no endpoint. -/
def usbd_open_edpt_pair (descs : List EndpointDesc) (ep_count : Nat) :
    Option (Nat × Nat) :=
  if ep_count ≤ descs.length ∧ (descs.take ep_count).all (fun d => d.isInterrupt) then
    some ((descs.take ep_count).foldl
      (fun acc d =>
        if d.bEndpointAddress < 0x80 then (d.bEndpointAddress, acc.2)
        else (acc.1, d.bEndpointAddress))
      (0, 0))
  else none

end TinyUsb

namespace X360

open TinyUsb

/-- Constants from `x360_device.h` and `x360.h`. -/
def X360_TRANSFER_IN_BUFFER_SIZE : Nat := 0x14

def X360_TRANSFER_OUT_BUFFER_SIZE : Nat := 0x8

def X360_CLASS_CONTROL : Nat := 0xff

def X360_SUBCLASS_CONTROL : Nat := 0x5d

def X360_PROTOCOL_CONTROL : Nat := 0x01

def X360_CLASS_SPECIFIC_TYPE : Nat := 0x21

def X360_HANDLE_RUMBLE : Nat := 0x0000

def X360_HANDLE_CONTROL : Nat := 0x0100

def X360_HANDLE_SERIAL : Nat := 0x0000

def X360_MESSAGE_TYPE_IN_INPUT : Nat := 0x00

def X360_MESSAGE_TYPE_OUT_RUMBLE : Nat := 0x00

def X360_MESSAGE_TYPE_OUT_LED : Nat := 0x01

def X360_LED_ALL_OFF : Nat := 0x00

/-- Configuration values from `tusb_config.h`: `X360_SERIAL_NUMBER "ABC"`
without its NUL terminator. -/
def X360_SERIAL_NUMBER_BYTES : List Nat := [0x41, 0x42, 0x43]

/-- Configuration value `X360_RUMBLE_SUPPORT { 0x0, 0x0 }`. -/
def X360_RUMBLE_SUPPORT : List Nat := [0x0, 0x0]

/-- Configuration value `X360_INPUT_SUPPORT` (18 bytes). -/
def X360_INPUT_SUPPORT : List Nat :=
  [0xFF, 0xF7, 0xFF, 0xFF, 0x00, 0xFF, 0x00, 0xFF, 0x00,
   0xFF, 0x00, 0xFF, 0x00, 0x00, 0x00, 0x00, 0x00, 0x00]

/-- One slot of `_x360_instances` (`x360d_instance_t`).  The dedicated
transfer buffers are instance-embedded byte arrays (20 bytes IN, 8 OUT). -/
structure Instance where
  rhport : Nat
  itf_num : Nat
  ep_in : Nat
  ep_out : Nat
  transfer_in_buf : List Nat
  transfer_out_buf : List Nat
  led : Nat
deriving Repr, DecidableEq

/-- Driver state: the single instance slot (`CFG_APP_X360 = 1`) plus the
host-stack endpoint states of its IN and OUT endpoints. -/
structure State where
  inst : Instance
  epIn : EndpointState
  epOut : EndpointState
deriving Repr, DecidableEq

/-- The zeroed instance produced by `x360d_reset` (`tu_memclr`). -/
def reset_instance : Instance :=
  { rhport := 0, itf_num := 0, ep_in := 0, ep_out := 0
    transfer_in_buf := List.replicate 20 0
    transfer_out_buf := List.replicate 8 0
    led := 0 }

/-- Lookup `get_instance_by_itf`: the slot matches when its interface number
equals the requested one and at least one endpoint address is nonzero. -/
def get_instance_by_itf (inst : Instance) (itf_num : Nat) : Option Instance :=
  if itf_num = inst.itf_num ∧ (inst.ep_in ≠ 0 ∨ inst.ep_out ≠ 0) then some inst else none

/-- Lookup `get_instance_by_ep`: the slot matches when the endpoint address
equals either of its endpoint addresses. -/
def get_instance_by_ep (inst : Instance) (ep_addr : Nat) : Option Instance :=
  if ep_addr = inst.ep_in ∨ ep_addr = inst.ep_out then some inst else none

/-- Lookup `get_free_instance`: the slot is free when both endpoint
addresses are zero. -/
def get_free_instance (inst : Instance) : Option Instance :=
  if inst.ep_in = 0 ∧ inst.ep_out = 0 then some inst else none

/-- Presence flags for the weak application callbacks of the X360 driver. -/
structure Cbs where
  report_issue : Bool
  report_complete : Bool
  received_led : Bool
  received_rumble : Bool
deriving Repr, DecidableEq

/-- Observable application callback invocations of the X360 driver. -/
inductive Event
  | issue (itf_num ep_addr result : Nat) (xferred_bytes : Nat)
  | report_complete (itf_num : Nat) (report : List Nat) (len : Nat)
  | received_led (itf_num led : Nat)
  | received_rumble (itf_num motor_left motor_right : Nat)
deriving Repr, DecidableEq

/-- Embedding of `x360d_n_report`: look the instance up, claim the IN
endpoint, serialize header `{type, length}` plus the 18 control bytes into
the instance's IN buffer, then enqueue a 20-byte transfer.  The result is
the returned `bool`, the new driver state, and the enqueued transfer if
any. -/
def x360d_n_report (st : State) (itf_num : Nat) (report : List Nat) :
    Bool × State × Option Transfer :=
  match get_instance_by_itf st.inst itf_num with
  | none => (false, st, none)
  | some p =>
    match usbd_edpt_claim st.epIn with
    | (false, epIn1) => (false, { st with epIn := epIn1 }, none)
    | (true, epIn1) =>
      -- len = sizeof(x360_message_controls_t) = 20
      let len := 20
      if len ≤ X360_TRANSFER_IN_BUFFER_SIZE then
        let buf := X360_MESSAGE_TYPE_IN_INPUT :: 20 :: report.take 18
        let inst1 := { p with transfer_in_buf := buf }
        match usbd_edpt_xfer buf len with
        | (ok, epIn2, t) => (ok, { st with inst := inst1, epIn := epIn2 }, some t)
      else (false, { st with epIn := epIn1 }, none)

/-- Reparsing an emitted 20-byte input report: the controls struct is the 18
payload bytes after the 2-byte message header. -/
def x360_parse_controls (message : List Nat) : List Nat :=
  (message.drop 2).take 18

/-- A `memcpy` of the first `n` bytes of `src` into the front of the
fixed-size buffer `dst`. -/
def copyInto (dst src : List Nat) (n : Nat) : List Nat :=
  src.take n ++ dst.drop n

/-- The synthesized rumble-capability message built in
`x360d_interface_request_handler`: header `{type, length = 8}`, a reserved
byte, the two `X360_RUMBLE_SUPPORT` bytes and three reserved bytes. -/
def rumble_capability_message : List Nat :=
  X360_MESSAGE_TYPE_OUT_RUMBLE :: 8 :: 0 :: X360_RUMBLE_SUPPORT ++ [0, 0, 0]

/-- The synthesized input-capability message built in
`x360d_interface_request_handler`: header `{type, length = 20}` followed by
the 18 `X360_INPUT_SUPPORT` bytes. -/
def input_capability_message : List Nat :=
  X360_MESSAGE_TYPE_IN_INPUT :: 20 :: X360_INPUT_SUPPORT

/-- Embedding of `x360d_interface_request_handler`: dispatch on `wValue`,
answering only at the SETUP stage; the reply is copied into the instance's
IN scratch buffer and handed to `tud_control_xfer` (buffer, length). -/
def x360d_interface_request_handler (inst : Instance) (stage : Nat)
    (req : ControlRequest) : Bool × Instance × Option (List Nat × Nat) :=
  if req.wValue = X360_HANDLE_RUMBLE then
    if stage ≠ CONTROL_STAGE_SETUP then (true, inst, none)
    else
      -- len = sizeof(x360_message_rumble_t) = 8
      if 8 ≤ X360_TRANSFER_IN_BUFFER_SIZE then
        let inst1 :=
          { inst with transfer_in_buf := copyInto inst.transfer_in_buf rumble_capability_message 8 }
        (true, inst1, some (inst1.transfer_in_buf, 8))
      else (false, inst, none)
  else if req.wValue = X360_HANDLE_CONTROL then
    if stage ≠ CONTROL_STAGE_SETUP then (true, inst, none)
    else
      -- len = sizeof(x360_message_controls_t) = 20
      if 20 ≤ X360_TRANSFER_IN_BUFFER_SIZE then
        let inst1 :=
          { inst with transfer_in_buf := copyInto inst.transfer_in_buf input_capability_message 20 }
        (true, inst1, some (inst1.transfer_in_buf, 20))
      else (false, inst, none)
  else (false, inst, none)

/-- Embedding of `x360d_device_request_handler`: only the serial-number
request is supported; at SETUP the configured serial bytes (no NUL) are
copied into the IN scratch buffer via `tu_memcpy_s` and sent. -/
def x360d_device_request_handler (inst : Instance) (stage : Nat)
    (req : ControlRequest) : Bool × Instance × Option (List Nat × Nat) :=
  if req.wValue = X360_HANDLE_SERIAL then
    if stage ≠ CONTROL_STAGE_SETUP then (true, inst, none)
    else
      -- tu_memcpy_s returns 0 exactly when the copy fits the destination
      if X360_SERIAL_NUMBER_BYTES.length ≤ X360_TRANSFER_IN_BUFFER_SIZE then
        let inst1 :=
          { inst with transfer_in_buf :=
              copyInto inst.transfer_in_buf X360_SERIAL_NUMBER_BYTES X360_SERIAL_NUMBER_BYTES.length }
        (true, inst1, some (inst1.transfer_in_buf, X360_SERIAL_NUMBER_BYTES.length))
      else (false, inst, none)
  else (false, inst, none)

/-- Embedding of `x360d_control_xfer_cb`: require a vendor-typed request
with `bRequest = 1`, resolve the instance by the low byte of `wIndex`,
check the port and interface number, then branch on the recipient
subfield. -/
def x360d_control_xfer_cb (st : State) (rhport stage : Nat) (req : ControlRequest) :
    Bool × State × Option (List Nat × Nat) :=
  if req.reqType ≠ TUSB_REQ_TYPE_VENDOR then (false, st, none)
  else if req.bRequest ≠ 1 then (false, st, none)
  else
    match get_instance_by_itf st.inst (tu_u16_low req.wIndex) with
    | none => (false, st, none)
    | some p =>
      if rhport ≠ p.rhport then (false, st, none)
      else if ¬(p.itf_num = req.wIndex) then (false, st, none)
      else if req.recipient = TUSB_REQ_RCPT_INTERFACE then
        match x360d_interface_request_handler p stage req with
        | (ok, inst1, reply) => (ok, { st with inst := inst1 }, reply)
      else if req.recipient = TUSB_REQ_RCPT_DEVICE then
        match x360d_device_request_handler p stage req with
        | (ok, inst1, reply) => (ok, { st with inst := inst1 }, reply)
      else (false, st, none)

/-- Embedding of `x360d_report_out_received`: classify the received OUT
message by the transferred byte count and the type byte of the message in
the OUT buffer.  An 8-byte rumble message reports the bytes at offsets 3
and 4; a 3-byte LED message is debounced against the stored animation. -/
def x360d_report_out_received (cbs : Cbs) (inst : Instance) (xferred_bytes : Nat) :
    Instance × List Event :=
  -- sizeof(x360_message_rumble_t) = 8
  if xferred_bytes = 8 ∧ byteAt inst.transfer_out_buf 0 = X360_MESSAGE_TYPE_OUT_RUMBLE then
    (inst,
      if cbs.received_rumble then
        [Event.received_rumble inst.itf_num
          (byteAt inst.transfer_out_buf 3) (byteAt inst.transfer_out_buf 4)]
      else [])
  -- sizeof(x360_message_led_t) = 3
  else if xferred_bytes = 3 ∧ byteAt inst.transfer_out_buf 0 = X360_MESSAGE_TYPE_OUT_LED then
    let led := byteAt inst.transfer_out_buf 2
    if inst.led = led then (inst, [])
    else
      ({ inst with led := led },
        if cbs.received_led then [Event.received_led inst.itf_num led] else [])
  else (inst, [])

/-- Predicate picking out rumble callback invocations among the events. -/
def Event.isRumble : Event → Bool
  | Event.received_rumble _ _ _ => true
  | _ => false

/-- Predicate picking out LED callback invocations among the events. -/
def Event.isLed : Event → Bool
  | Event.received_led _ _ => true
  | _ => false

/-- Embedding of `x360d_xfer_cb`: resolve the instance by endpoint address;
on a failed result delegate to `report_issue` or re-arm the OUT endpoint;
on success dispatch IN completions to `report_complete` and OUT completions
through `x360d_report_out_received`, then unconditionally re-arm the OUT
endpoint with the instance's OUT buffer. -/
def x360d_xfer_cb (cbs : Cbs) (st : State) (rhport ep_addr result xferred_bytes : Nat) :
    Bool × State × List Event × Option Transfer :=
  match get_instance_by_ep st.inst ep_addr with
  | none => (false, st, [], none)
  | some p =>
    if rhport ≠ p.rhport then (false, st, [], none)
    else if result ≠ XFER_RESULT_SUCCESS then
      if cbs.report_issue then
        (true, st, [Event.issue p.itf_num ep_addr result xferred_bytes], none)
      else if ep_addr = p.ep_out then
        match usbd_edpt_xfer p.transfer_out_buf X360_TRANSFER_OUT_BUFFER_SIZE with
        | (_, epOut1, t) => (true, { st with epOut := epOut1 }, [], some t)
      else (true, st, [], none)
    else if ep_addr = p.ep_in then
      (true, st,
        if cbs.report_complete then
          [Event.report_complete p.itf_num p.transfer_in_buf xferred_bytes]
        else [], none)
    else if ep_addr = p.ep_out then
      match x360d_report_out_received cbs p xferred_bytes with
      | (inst1, evs) =>
        match usbd_edpt_xfer inst1.transfer_out_buf X360_TRANSFER_OUT_BUFFER_SIZE with
        | (_, epOut1, t) =>
          (true, { st with inst := inst1, epOut := epOut1 }, evs, some t)
    else (true, st, [], none)

/-- Embedding of `x360d_open`: match the unofficial class triple, check the
descriptor block length against `max_len`, take the free slot, require the
class-specific descriptor type `0x21`, open the interrupt endpoint pair,
record interface number and port, and arm the OUT endpoint when present.
Returns the consumed descriptor length (0 on rejection), the new state and
the armed OUT transfer if any. -/
def x360d_open (st : State) (rhport : Nat) (desc_itf : InterfaceDesc)
    (class_desc_type : Nat) (ep_descs : List EndpointDesc) (max_len : Nat) :
    Nat × State × Option Transfer :=
  if ¬(desc_itf.bInterfaceClass = X360_CLASS_CONTROL ∧
       desc_itf.bInterfaceSubClass = X360_SUBCLASS_CONTROL ∧
       desc_itf.bInterfaceProtocol = X360_PROTOCOL_CONTROL) then (0, st, none)
  else
    -- drv_len = sizeof(tusb_desc_interface_t) + sizeof(x360_desc_specific_class_t)
    --           + bNumEndpoints * sizeof(tusb_desc_endpoint_t) = 9 + 17 + n * 7
    let drv_len := 9 + 17 + desc_itf.bNumEndpoints * 7
    if ¬(drv_len ≤ max_len) then (0, st, none)
    else
      match get_free_instance st.inst with
      | none => (0, st, none)
      | some p =>
        if class_desc_type ≠ X360_CLASS_SPECIFIC_TYPE then (0, st, none)
        else
          match usbd_open_edpt_pair ep_descs desc_itf.bNumEndpoints with
          | none => (0, st, none)
          | some (ep_out_addr, ep_in_addr) =>
            let inst1 :=
              { p with
                ep_out := ep_out_addr
                ep_in := ep_in_addr
                itf_num := desc_itf.bInterfaceNumber
                rhport := rhport }
            if inst1.ep_out = 0 then (drv_len, { st with inst := inst1 }, none)
            else
              match usbd_edpt_xfer inst1.transfer_out_buf X360_TRANSFER_OUT_BUFFER_SIZE with
              | (_, epOut1, t) =>
                (drv_len, { st with inst := inst1, epOut := epOut1 }, some t)

end X360

namespace CHid

open TinyUsb

/-- Constants from `class/hid/hid.h` used by the custom HID driver. -/
def TUSB_CLASS_HID : Nat := 3

def TUSB_REQ_GET_DESCRIPTOR : Nat := 6

def HID_DESC_TYPE_HID : Nat := 0x21

def HID_DESC_TYPE_REPORT : Nat := 0x22

def HID_DESC_TYPE_PHYSICAL : Nat := 0x23

def HID_REQ_CONTROL_GET_REPORT : Nat := 0x01

def HID_REQ_CONTROL_GET_IDLE : Nat := 0x02

def HID_REQ_CONTROL_GET_PROTOCOL : Nat := 0x03

def HID_REQ_CONTROL_SET_REPORT : Nat := 0x09

def HID_REQ_CONTROL_SET_IDLE : Nat := 0x0A

def HID_REQ_CONTROL_SET_PROTOCOL : Nat := 0x0B

def HID_PROTOCOL_BOOT : Nat := 0

def HID_PROTOCOL_REPORT : Nat := 1

/-- One slot of `_chidd_instances` (`chidd_instance_t`).  The transfer
buffers are application-owned pointers, so nullable. -/
structure Instance where
  rhport : Nat
  itf_num : Nat
  ep_in : Nat
  ep_out : Nat
  transfer_in_buf : Option (List Nat)
  transfer_out_buf : Option (List Nat)
  transfer_out_size : Nat
  protocol_mode : Nat
  idle_rate : Nat
  hid_descriptor : Option (List Nat)
deriving Repr, DecidableEq

/-- Driver state: the single instance slot plus the host-stack endpoint
states of its IN and OUT endpoints. -/
structure State where
  inst : Instance
  epIn : TinyUsb.EndpointState
  epOut : TinyUsb.EndpointState
deriving Repr, DecidableEq

/-- The zeroed instance produced by `chidd_reset` (`tu_memclr`): every
field zero, the buffer pointers NULL. -/
def reset_instance : Instance :=
  { rhport := 0, itf_num := 0, ep_in := 0, ep_out := 0
    transfer_in_buf := none, transfer_out_buf := none, transfer_out_size := 0
    protocol_mode := 0, idle_rate := 0, hid_descriptor := none }

/-- Lookup `get_instance_by_itf` of the HID driver: the slot matches when
its interface number equals the requested one and it is not free. -/
def get_instance_by_itf (inst : Instance) (itf_num : Nat) : Option Instance :=
  if itf_num = inst.itf_num ∧ (inst.ep_in ≠ 0 ∨ inst.ep_out ≠ 0) then some inst else none

/-- Lookup `get_free_instance` of the HID driver. -/
def get_free_instance (inst : Instance) : Option Instance :=
  if inst.ep_in = 0 ∧ inst.ep_out = 0 then some inst else none

/-- Application callbacks of the custom HID driver.  Weak callbacks are
`Option`/`Bool`; the mandatory ones (`descriptor_report`, `get_report`)
are total but may hand back a NULL pointer.  A buffer-producing callback
yields the pointer (nullable) and the length it wrote to its out
parameter. -/
structure Cbs where
  out_endpoint_opened : Bool
  descriptor_report : Nat → Option (List Nat) × Nat
  descriptor_physical : Option (Nat → Nat → Option (List Nat) × Nat)
  get_report : Nat → Nat → Nat → Option (List Nat) × Nat
  set_report : Option (Nat → Nat → Nat → Option (List Nat) × Nat)
  get_idle : Option (Nat → Nat → Option Nat)
  set_idle : Option (Nat → Nat → Nat → Bool)
  set_protocol : Option (Nat → Nat → Bool)
  report_received_complete : Bool

/-- Observable control-path events of the custom HID driver:
`tud_control_xfer` replies, `tud_control_status` zero-length replies, and
application callback invocations. -/
inductive CtlEvent
  | control_xfer (buf : List Nat) (len : Nat)
  | control_status
  | cb_out_endpoint_opened (itf_num : Nat)
  | cb_get_idle (report_id : Nat)
  | cb_set_idle (report_id duration : Nat)
  | cb_set_protocol (mode : Nat)
  | cb_report_received (report_id report_type : Nat) (buf : Option (List Nat)) (len : Nat)
deriving Repr, DecidableEq

/-- Embedding of `chidd_send_report`: look the instance up, claim the IN
endpoint, store the application buffer pointer, then validate it and
enqueue the transfer. -/
def chidd_send_report (st : State) (itf_num : Nat) (report : Option (List Nat))
    (len : Nat) : Bool × State × Option Transfer :=
  match get_instance_by_itf st.inst itf_num with
  | none => (false, st, none)
  | some p =>
    match usbd_edpt_claim st.epIn with
    | (false, epIn1) => (false, { st with epIn := epIn1 }, none)
    | (true, epIn1) =>
      -- the buffer pointer is recorded before it is validated
      let inst1 := { p with transfer_in_buf := report }
      if ¬(report ≠ none ∧ len ≠ 0) then
        (false, { st with inst := inst1, epIn := epIn1 }, none)
      else
        match usbd_edpt_xfer (report.getD []) len with
        | (ok, epIn2, t) => (ok, { st with inst := inst1, epIn := epIn2 }, some t)

/-- Embedding of `chidd_open`: match any HID-class interface, check the
descriptor block length, take the free slot, require and stash the HID
sub-descriptor (type `0x21`), open the interrupt endpoint pair, record
interface number and port, default the protocol mode to Report, and notify
the application when an OUT endpoint was opened. -/
def chidd_open (cbs : Cbs) (st : State) (rhport : Nat) (desc_itf : InterfaceDesc)
    (hid_desc : List Nat) (ep_descs : List EndpointDesc) (max_len : Nat) :
    Nat × State × List CtlEvent :=
  if desc_itf.bInterfaceClass ≠ TUSB_CLASS_HID then (0, st, [])
  else
    -- drv_len = sizeof(tusb_desc_interface_t) + sizeof(tusb_hid_descriptor_hid_t)
    --           + bNumEndpoints * sizeof(tusb_desc_endpoint_t) = 9 + 9 + n * 7
    let drv_len := 9 + 9 + desc_itf.bNumEndpoints * 7
    if ¬(drv_len ≤ max_len) then (0, st, [])
    else
      match get_free_instance st.inst with
      | none => (0, st, [])
      | some p =>
        -- tu_desc_type is the second byte of the descriptor
        if byteAt hid_desc 1 ≠ HID_DESC_TYPE_HID then (0, st, [])
        else
          match usbd_open_edpt_pair ep_descs desc_itf.bNumEndpoints with
          | none => (0, st, [])
          | some (ep_out_addr, ep_in_addr) =>
            let inst1 :=
              { p with
                hid_descriptor := some hid_desc
                ep_out := ep_out_addr
                ep_in := ep_in_addr
                itf_num := desc_itf.bInterfaceNumber
                rhport := rhport
                protocol_mode := HID_PROTOCOL_REPORT }
            let evs :=
              if inst1.ep_out ≠ 0 ∧ cbs.out_endpoint_opened then
                [CtlEvent.cb_out_endpoint_opened inst1.itf_num]
              else []
            (drv_len, { st with inst := inst1 }, evs)

/-- Embedding of `chidd_standard_request_handler`: only `GET_DESCRIPTOR`
is supported, dispatched on the high byte of `wValue` (HID, Report or
Physical descriptor); replies only at the SETUP stage. -/
def chidd_standard_request_handler (cbs : Cbs) (inst : Instance) (stage : Nat)
    (req : ControlRequest) : Bool × List CtlEvent :=
  if req.bRequest ≠ TUSB_REQ_GET_DESCRIPTOR then (false, [])
  else if tu_u16_high req.wValue = HID_DESC_TYPE_HID then
    if stage ≠ CONTROL_STAGE_SETUP then (true, [])
    else
      match inst.hid_descriptor with
      | none => (false, [])
      | some d => (true, [CtlEvent.control_xfer d (byteAt d 0)])
  else if tu_u16_high req.wValue = HID_DESC_TYPE_REPORT then
    if stage ≠ CONTROL_STAGE_SETUP then (true, [])
    else
      match cbs.descriptor_report inst.itf_num with
      | (none, _) => (false, [])
      | (some buf, len) =>
        if len = 0 then (false, [])
        else (true, [CtlEvent.control_xfer buf len])
  else if tu_u16_high req.wValue = HID_DESC_TYPE_PHYSICAL then
    if stage ≠ CONTROL_STAGE_SETUP then (true, [])
    else
      match cbs.descriptor_physical with
      | none => (false, [])
      | some cb =>
        match cb inst.itf_num (tu_u16_low req.wValue) with
        | (none, _) => (false, [])
        | (some buf, len) =>
          if len = 0 then (false, [])
          else (true, [CtlEvent.control_xfer buf len])
  else (false, [])

/-- Embedding of `chidd_class_specific_request_handler`: the class-request
switch on `bRequest` (GET/SET_REPORT, GET/SET_IDLE, GET/SET_PROTOCOL),
with the direction checks, SETUP/ACK stage handling, the instance state
updates and the delegate callbacks of the C code. -/
def chidd_class_specific_request_handler (cbs : Cbs) (inst : Instance) (stage : Nat)
    (req : ControlRequest) : Bool × Instance × List CtlEvent :=
  if req.bRequest = HID_REQ_CONTROL_GET_REPORT then
    if req.direction ≠ 1 then (false, inst, [])
    else if stage ≠ CONTROL_STAGE_SETUP then (true, inst, [])
    else
      match cbs.get_report inst.itf_num (tu_u16_low req.wValue) (tu_u16_high req.wValue) with
      | (buf, len) =>
        let inst1 := { inst with transfer_in_buf := buf }
        match buf with
        | none => (false, inst1, [])
        | some b =>
          if len = 0 then (false, inst1, [])
          else (true, inst1, [CtlEvent.control_xfer b len])
  else if req.bRequest = HID_REQ_CONTROL_SET_REPORT then
    if req.direction ≠ 0 then (false, inst, [])
    else if stage = CONTROL_STAGE_SETUP then
      match cbs.set_report with
      | none => (false, inst, [])
      | some cb =>
        match cb inst.itf_num (tu_u16_low req.wValue) (tu_u16_high req.wValue) with
        | (buf, size) =>
          let inst1 := { inst with transfer_out_buf := buf, transfer_out_size := size }
          match buf with
          | none => (false, inst1, [])
          | some b =>
            if size = 0 then (false, inst1, [])
            else (true, inst1, [CtlEvent.control_xfer b size])
    else if stage = CONTROL_STAGE_ACK then
      if ¬cbs.report_received_complete then (true, inst, [])
      else
        (true, inst,
          [CtlEvent.cb_report_received (tu_u16_low req.wValue) (tu_u16_high req.wValue)
            inst.transfer_out_buf req.wLength])
    else (true, inst, [])
  else if req.bRequest = HID_REQ_CONTROL_GET_IDLE then
    if req.direction ≠ 1 then (false, inst, [])
    else if stage ≠ CONTROL_STAGE_SETUP then (true, inst, [])
    else if tu_u16_low req.wValue = 0 then
      (true, inst, [CtlEvent.control_xfer [inst.idle_rate] 1])
    else
      match cbs.get_idle with
      | none => (false, inst, [])
      | some cb =>
        match cb inst.itf_num (tu_u16_low req.wValue) with
        | none => (false, inst, [CtlEvent.cb_get_idle (tu_u16_low req.wValue)])
        | some duration =>
          (true, inst,
            [CtlEvent.cb_get_idle (tu_u16_low req.wValue),
             CtlEvent.control_xfer [duration] 1])
  else if req.bRequest = HID_REQ_CONTROL_SET_IDLE then
    if req.direction ≠ 0 then (false, inst, [])
    else if stage ≠ CONTROL_STAGE_SETUP then (true, inst, [])
    else
      let inst1 :=
        if tu_u16_low req.wValue = 0 then
          { inst with idle_rate := tu_u16_high req.wValue }
        else inst
      match cbs.set_idle with
      | none => (false, inst1, [CtlEvent.control_status])
      | some cb =>
        if cb inst1.itf_num (tu_u16_low req.wValue) (tu_u16_high req.wValue) then
          (true, inst1,
            [CtlEvent.control_status,
             CtlEvent.cb_set_idle (tu_u16_low req.wValue) (tu_u16_high req.wValue)])
        else
          (false, inst1,
            [CtlEvent.control_status,
             CtlEvent.cb_set_idle (tu_u16_low req.wValue) (tu_u16_high req.wValue)])
  else if req.bRequest = HID_REQ_CONTROL_GET_PROTOCOL then
    if req.direction ≠ 1 then (false, inst, [])
    else if stage ≠ CONTROL_STAGE_SETUP then (true, inst, [])
    else (true, inst, [CtlEvent.control_xfer [inst.protocol_mode] 1])
  else if req.bRequest = HID_REQ_CONTROL_SET_PROTOCOL then
    if req.direction ≠ 0 then (false, inst, [])
    else if stage ≠ CONTROL_STAGE_SETUP then (true, inst, [])
    else
      let inst1 := { inst with protocol_mode := tu_u16_low req.wValue }
      match cbs.set_protocol with
      | none => (false, inst1, [CtlEvent.control_status])
      | some cb =>
        if cb inst1.itf_num (tu_u16_low req.wValue) then
          (true, inst1,
            [CtlEvent.control_status, CtlEvent.cb_set_protocol (tu_u16_low req.wValue)])
        else
          (false, inst1,
            [CtlEvent.control_status, CtlEvent.cb_set_protocol (tu_u16_low req.wValue)])
  else (false, inst, [])

/-- Embedding of `chidd_control_xfer_cb`: require an interface recipient,
resolve the instance by the low byte of `wIndex`, check port and interface
number, then split on the request type. -/
def chidd_control_xfer_cb (cbs : Cbs) (st : State) (rhport stage : Nat)
    (req : ControlRequest) : Bool × State × List CtlEvent :=
  if req.recipient ≠ TUSB_REQ_RCPT_INTERFACE then (false, st, [])
  else
    match get_instance_by_itf st.inst (tu_u16_low req.wIndex) with
    | none => (false, st, [])
    | some p =>
      if rhport ≠ p.rhport then (false, st, [])
      else if ¬(p.itf_num = req.wIndex) then (false, st, [])
      else if req.reqType = TUSB_REQ_TYPE_STANDARD then
        ((chidd_standard_request_handler cbs p stage req).1, st,
         (chidd_standard_request_handler cbs p stage req).2)
      else if req.reqType = TUSB_REQ_TYPE_CLASS then
        ((chidd_class_specific_request_handler cbs p stage req).1,
         { st with inst := (chidd_class_specific_request_handler cbs p stage req).2.1 },
         (chidd_class_specific_request_handler cbs p stage req).2.2)
      else (false, st, [])

/-- Embedding of `chidd_get_protocol`: report the stored protocol mode of a
bound instance. -/
def chidd_get_protocol (st : State) (itf_num : Nat) : Option Nat :=
  match get_instance_by_itf st.inst itf_num with
  | none => none
  | some p => some p.protocol_mode

end CHid

namespace MsOs

open TinyUsb

/-- Constant `MS_OS_DESCRIPTOR_VENDORCODE` from `tusb_config.h`. -/
def MS_OS_DESCRIPTOR_VENDORCODE : Nat := 0x42

def MS_EXTENDED_COMPATID_DESCRIPTOR : Nat := 0x04

def MS_EXTENDED_PROPERTIES_DESCRIPTOR : Nat := 0x05

/-- Application providers for the two MS OS 1.0 feature descriptors, each a
byte blob plus the length written to the out parameter; `none` when the
weak callback is not registered. -/
structure Cbs where
  compatid : Option (List Nat × Nat)
  property : Option (List Nat × Nat)
deriving Repr, DecidableEq

/-- Embedding of `ms_os_control_xfer_cb`: require a vendor-typed request
carrying the configured vendor code, dispatch on `wIndex` to the compat-ID
or extended-properties provider, reply only at the SETUP stage, and return
unhandled in every other case. -/
def ms_os_control_xfer_cb (cbs : Cbs) (stage : Nat) (req : ControlRequest) :
    Bool × Option (List Nat × Nat) :=
  if req.reqType ≠ TUSB_REQ_TYPE_VENDOR then (false, none)
  else if req.bRequest ≠ MS_OS_DESCRIPTOR_VENDORCODE then (false, none)
  else if req.wIndex = MS_EXTENDED_COMPATID_DESCRIPTOR then
    match cbs.compatid with
    | some r => if stage ≠ CONTROL_STAGE_SETUP then (true, none) else (true, some r)
    | none => (false, none)
  else if req.wIndex = MS_EXTENDED_PROPERTIES_DESCRIPTOR then
    match cbs.property with
    | some r => if stage ≠ CONTROL_STAGE_SETUP then (true, none) else (true, some r)
    | none => (false, none)
  else (false, none)

end MsOs

namespace Fixtures

open TinyUsb

/-- A bound X360 instance used by the concrete witness theorems. -/
def x360Inst : X360.Instance :=
  { rhport := 0, itf_num := 0, ep_in := 0x81, ep_out := 0x01
    transfer_in_buf := List.replicate 20 0
    transfer_out_buf := List.replicate 8 0, led := 0 }

/-- An X360 driver state with idle endpoints. -/
def x360St : X360.State := ⟨x360Inst, ⟨false, false⟩, ⟨false, false⟩⟩

/-- A vendor request with `bRequest = 1` and `wValue = 0` for interface 0. -/
def vreq : ControlRequest :=
  { direction := 1, reqType := 2, recipient := 0, bRequest := 1
    wValue := 0, wIndex := 0, wLength := 8 }

/-- A bound custom-HID instance used by the concrete witness theorems. -/
def hidInst : CHid.Instance :=
  { rhport := 0, itf_num := 0, ep_in := 0x82, ep_out := 0x02
    transfer_in_buf := none, transfer_out_buf := none, transfer_out_size := 0
    protocol_mode := 1, idle_rate := 0, hid_descriptor := some [9, 0x21, 0x11, 1, 0, 1, 0x22, 63, 0] }

/-- A custom-HID driver state with idle endpoints. -/
def hidSt : CHid.State := ⟨hidInst, ⟨false, false⟩, ⟨false, false⟩⟩

/-- A SET_IDLE class request with `wValue = 0xFF00` for interface 0. -/
def setIdleReq : ControlRequest :=
  { direction := 0, reqType := 1, recipient := 1, bRequest := 0x0A
    wValue := 0xFF00, wIndex := 0, wLength := 0 }

/-- A SET_PROTOCOL class request with `wValue = 0` for interface 0. -/
def setProtocolReq : ControlRequest :=
  { direction := 0, reqType := 1, recipient := 1, bRequest := 0x0B
    wValue := 0, wIndex := 0, wLength := 0 }

/-- A GET_PROTOCOL class request for interface 0. -/
def getProtocolReq : ControlRequest :=
  { direction := 1, reqType := 1, recipient := 1, bRequest := 0x03
    wValue := 0, wIndex := 0, wLength := 1 }

/-- A custom-HID callback table with every weak callback absent. -/
def hidCbsNone : CHid.Cbs :=
  { out_endpoint_opened := false
    descriptor_report := fun _ => (none, 0)
    descriptor_physical := none
    get_report := fun _ _ _ => (none, 0)
    set_report := none
    get_idle := none
    set_idle := none
    set_protocol := none
    report_received_complete := false }

/-- An X360 callback table with every weak callback present. -/
def x360CbsAll : X360.Cbs := ⟨true, true, true, true⟩

/-- A bound X360 instance whose stored LED animation is 6 and whose OUT
buffer holds the LED message `01 03 06`. -/
def x360LedInst : X360.Instance :=
  { rhport := 0, itf_num := 0, ep_in := 0x81, ep_out := 0x01
    transfer_in_buf := List.replicate 20 0
    transfer_out_buf := [0x01, 0x03, 0x06, 0, 0, 0, 0, 0], led := 6 }

/-- A bound X360 instance whose OUT buffer holds an 8-byte message with
type byte `0x00` but header length byte `0x09`. -/
def x360RumbleLenInst : X360.Instance :=
  { rhport := 0, itf_num := 0, ep_in := 0x81, ep_out := 0x01
    transfer_in_buf := List.replicate 20 0
    transfer_out_buf := [0x00, 0x09, 0x00, 0x80, 0x40, 0, 0, 0], led := 0 }

/-- Driver state around `x360RumbleLenInst`. -/
def x360RumbleLenSt : X360.State := ⟨x360RumbleLenInst, ⟨false, false⟩, ⟨false, true⟩⟩

end Fixtures

/-- Copying a buffer whose length matches the copy count puts exactly that
buffer at the front of the destination. -/
theorem copyInto_take (dst src : List Nat) (n : Nat) (h : src.length = n) :
    (X360.copyInto dst src n).take n = src := by
  unfold X360.copyInto
  rw [← h, List.take_length, List.take_left]

/-- At the SETUP stage a rumble-capability query copies the synthesized
rumble message into the IN scratch buffer and replies with it. -/
theorem interface_handler_rumble (inst : X360.Instance) (req : TinyUsb.ControlRequest)
    (hval : req.wValue = 0) :
    X360.x360d_interface_request_handler inst TinyUsb.CONTROL_STAGE_SETUP req =
      (true,
       { inst with transfer_in_buf :=
           X360.copyInto inst.transfer_in_buf X360.rumble_capability_message 8 },
       some (X360.copyInto inst.transfer_in_buf X360.rumble_capability_message 8, 8)) := by
  unfold X360.x360d_interface_request_handler
  simp [hval, X360.X360_HANDLE_RUMBLE, X360.X360_TRANSFER_IN_BUFFER_SIZE]

/-- At the SETUP stage a serial-number request copies the configured serial
bytes into the IN scratch buffer and replies with them. -/
theorem device_handler_serial (inst : X360.Instance) (req : TinyUsb.ControlRequest)
    (hval : req.wValue = 0) :
    X360.x360d_device_request_handler inst TinyUsb.CONTROL_STAGE_SETUP req =
      (true,
       { inst with transfer_in_buf :=
           X360.copyInto inst.transfer_in_buf X360.X360_SERIAL_NUMBER_BYTES 3 },
       some (X360.copyInto inst.transfer_in_buf X360.X360_SERIAL_NUMBER_BYTES 3, 3)) := by
  unfold X360.x360d_device_request_handler
  simp [hval, X360.X360_HANDLE_SERIAL, X360.X360_TRANSFER_IN_BUFFER_SIZE,
    X360.X360_SERIAL_NUMBER_BYTES]

/-- Claim C1: a successful `x360d_n_report` writes the header
`{type = 0x00, length = 20}` followed by the 18 control bytes into the
instance's IN buffer, enqueues that 20-byte buffer as an IN transfer, and
reparsing the emitted bytes gives back the input controls bitwise. -/
theorem C1_report_roundtrip (st : X360.State) (itf : Nat) (report : List Nat)
    (hlen : report.length = 18)
    (hok : (X360.x360d_n_report st itf report).1 = true) :
    (X360.x360d_n_report st itf report).2.1.inst.transfer_in_buf =
      0x00 :: 20 :: report ∧
    (X360.x360d_n_report st itf report).2.2 = some ⟨0x00 :: 20 :: report, 20⟩ ∧
    X360.x360_parse_controls
      ((X360.x360d_n_report st itf report).2.1.inst.transfer_in_buf) = report := by
  have htake : report.take 18 = report := by
    simp [← hlen, List.take_length]
  unfold X360.x360d_n_report at hok ⊢
  cases hfind : X360.get_instance_by_itf st.inst itf with
  | none => simp [hfind] at hok
  | some p =>
    cases hclaim : TinyUsb.usbd_edpt_claim st.epIn with
    | mk ok ep1 =>
      cases ok with
      | false => simp [hfind, hclaim] at hok
      | true =>
        simp only [hfind, hclaim, TinyUsb.usbd_edpt_xfer,
          X360.X360_TRANSFER_IN_BUFFER_SIZE, X360.X360_MESSAGE_TYPE_IN_INPUT] at hok ⊢
        norm_num [htake, X360.x360_parse_controls, hlen]

/-- Witness for C1 at a concrete bound instance and concrete controls. -/
theorem C1_report_roundtrip_witness :
    let inst : X360.Instance :=
      { rhport := 0, itf_num := 0, ep_in := 0x81, ep_out := 0x01
        transfer_in_buf := List.replicate 20 0
        transfer_out_buf := List.replicate 8 0, led := 0 }
    let st : X360.State := ⟨inst, ⟨false, false⟩, ⟨false, false⟩⟩
    let controls : List Nat :=
      [0, 0x10, 0, 0, 1, 2, 3, 4, 5, 6, 7, 8, 0, 0, 0, 0, 0, 0]
    (X360.x360d_n_report st 0 controls).2.1.inst.transfer_in_buf =
      0x00 :: 20 :: controls ∧
    (X360.x360d_n_report st 0 controls).2.2 = some ⟨0x00 :: 20 :: controls, 20⟩ ∧
    X360.x360_parse_controls
      ((X360.x360d_n_report st 0 controls).2.1.inst.transfer_in_buf) = controls := by
  exact C1_report_roundtrip _ _ _ (by decide) (by decide)

/-- Claim C2: for a vendor-typed request with `bRequest = 0x01` and
`wValue = 0x0000` addressed to a bound X360 interface, the driver branches
on the recipient: recipient INTERFACE answers the SETUP stage with the
synthesized 8-byte rumble-capability message, recipient DEVICE answers the
SETUP stage with the configured serial string bytes (no NUL terminator), so
the same `wValue` selects two different handlers purely by recipient. -/
theorem C2_vendor_recipient_dispatch (st : X360.State) (rhport : Nat)
    (req : TinyUsb.ControlRequest) (p : X360.Instance)
    (hty : req.reqType = TinyUsb.TUSB_REQ_TYPE_VENDOR)
    (hreq : req.bRequest = 1)
    (hval : req.wValue = 0)
    (hfind : X360.get_instance_by_itf st.inst (TinyUsb.tu_u16_low req.wIndex) = some p)
    (hport : rhport = p.rhport)
    (hitf : p.itf_num = req.wIndex) :
    ((X360.x360d_control_xfer_cb st rhport TinyUsb.CONTROL_STAGE_SETUP
        { req with recipient := TinyUsb.TUSB_REQ_RCPT_INTERFACE }).1 = true ∧
     ((X360.x360d_control_xfer_cb st rhport TinyUsb.CONTROL_STAGE_SETUP
        { req with recipient := TinyUsb.TUSB_REQ_RCPT_INTERFACE }).2.2.map
          (fun r => (r.1.take r.2, r.2)))
       = some ([0x00, 0x08, 0x00, 0x00, 0x00, 0x00, 0x00, 0x00], 8)) ∧
    ((X360.x360d_control_xfer_cb st rhport TinyUsb.CONTROL_STAGE_SETUP
        { req with recipient := TinyUsb.TUSB_REQ_RCPT_DEVICE }).1 = true ∧
     ((X360.x360d_control_xfer_cb st rhport TinyUsb.CONTROL_STAGE_SETUP
        { req with recipient := TinyUsb.TUSB_REQ_RCPT_DEVICE }).2.2.map
          (fun r => (r.1.take r.2, r.2)))
       = some ([0x41, 0x42, 0x43], 3)) := by
  have hrumble : X360.rumble_capability_message = [0x00, 0x08, 0x00, 0x00, 0x00, 0x00, 0x00, 0x00] := by
    decide
  have hserial : X360.X360_SERIAL_NUMBER_BYTES = [0x41, 0x42, 0x43] := by decide
  have ht1 : ∀ dst : List Nat,
      (X360.copyInto dst [0x00, 0x08, 0x00, 0x00, 0x00, 0x00, 0x00, 0x00] 8).take 8 =
        [0x00, 0x08, 0x00, 0x00, 0x00, 0x00, 0x00, 0x00] :=
    fun dst => copyInto_take dst _ _ (by decide)
  have ht2 : ∀ dst : List Nat,
      (X360.copyInto dst [0x41, 0x42, 0x43] 3).take 3 = [0x41, 0x42, 0x43] :=
    fun dst => copyInto_take dst _ _ (by decide)
  have hi := interface_handler_rumble p
    { req with recipient := TinyUsb.TUSB_REQ_RCPT_INTERFACE } hval
  have hd := device_handler_serial p
    { req with recipient := TinyUsb.TUSB_REQ_RCPT_DEVICE } hval
  simp only [hty, hreq, TinyUsb.TUSB_REQ_TYPE_VENDOR, TinyUsb.TUSB_REQ_RCPT_INTERFACE,
    TinyUsb.TUSB_REQ_RCPT_DEVICE] at hi hd
  unfold X360.x360d_control_xfer_cb
  simp only [hty, hreq, hfind, hport, hitf]
  simp [hi, hd, ht1, ht2, hrumble, hserial,
    TinyUsb.TUSB_REQ_TYPE_VENDOR, TinyUsb.TUSB_REQ_RCPT_INTERFACE,
    TinyUsb.TUSB_REQ_RCPT_DEVICE]

/-- Witness for C2 at a concrete bound instance and request. -/
theorem C2_vendor_recipient_dispatch_witness :
    ((X360.x360d_control_xfer_cb Fixtures.x360St 0 TinyUsb.CONTROL_STAGE_SETUP
        { Fixtures.vreq with recipient := TinyUsb.TUSB_REQ_RCPT_INTERFACE }).1 = true ∧
     ((X360.x360d_control_xfer_cb Fixtures.x360St 0 TinyUsb.CONTROL_STAGE_SETUP
        { Fixtures.vreq with recipient := TinyUsb.TUSB_REQ_RCPT_INTERFACE }).2.2.map
          (fun r => (r.1.take r.2, r.2)))
       = some ([0x00, 0x08, 0x00, 0x00, 0x00, 0x00, 0x00, 0x00], 8)) ∧
    ((X360.x360d_control_xfer_cb Fixtures.x360St 0 TinyUsb.CONTROL_STAGE_SETUP
        { Fixtures.vreq with recipient := TinyUsb.TUSB_REQ_RCPT_DEVICE }).1 = true ∧
     ((X360.x360d_control_xfer_cb Fixtures.x360St 0 TinyUsb.CONTROL_STAGE_SETUP
        { Fixtures.vreq with recipient := TinyUsb.TUSB_REQ_RCPT_DEVICE }).2.2.map
          (fun r => (r.1.take r.2, r.2)))
       = some ([0x41, 0x42, 0x43], 3)) := by
  exact C2_vendor_recipient_dispatch Fixtures.x360St 0 Fixtures.vreq Fixtures.x360Inst
    rfl rfl rfl (by decide) rfl (by decide)

/-- Counterexample to claim C3: with the received-LED callback registered,
two consecutive identical 3-byte LED OUT messages whose animation code
equals the instance's stored LED value produce zero `received_led`
invocations, not exactly one. -/
theorem C3_counterexample :
    TinyUsb.byteAt Fixtures.x360LedInst.transfer_out_buf 0 = X360.X360_MESSAGE_TYPE_OUT_LED ∧
    Fixtures.x360CbsAll.received_led = true ∧
    ((X360.x360d_report_out_received Fixtures.x360CbsAll Fixtures.x360LedInst 3).2 ++
     (X360.x360d_report_out_received Fixtures.x360CbsAll
        (X360.x360d_report_out_received Fixtures.x360CbsAll Fixtures.x360LedInst 3).1 3).2).countP
      X360.Event.isLed = 0 := by decide

/-- Claim C3 (amended): a 3-byte LED OUT message whose animation code
equals the stored LED value is dropped with no callback and no state
change; otherwise the value is stored and `received_led` fires once.  Two
consecutive identical LED OUT messages therefore produce at most one
`received_led` invocation — exactly one when the first message's code
differs from the stored value. -/
theorem C3_led_debounce (cbs : X360.Cbs) (inst : X360.Instance)
    (hcb : cbs.received_led = true)
    (htype : TinyUsb.byteAt inst.transfer_out_buf 0 = X360.X360_MESSAGE_TYPE_OUT_LED) :
    (inst.led = TinyUsb.byteAt inst.transfer_out_buf 2 →
      X360.x360d_report_out_received cbs inst 3 = (inst, [])) ∧
    (inst.led ≠ TinyUsb.byteAt inst.transfer_out_buf 2 →
      (X360.x360d_report_out_received cbs inst 3).1.led =
        TinyUsb.byteAt inst.transfer_out_buf 2 ∧
      (X360.x360d_report_out_received cbs inst 3).2 =
        [X360.Event.received_led inst.itf_num (TinyUsb.byteAt inst.transfer_out_buf 2)]) ∧
    ((X360.x360d_report_out_received cbs inst 3).2 ++
     (X360.x360d_report_out_received cbs
        (X360.x360d_report_out_received cbs inst 3).1 3).2).countP
      X360.Event.isLed ≤ 1 ∧
    (inst.led ≠ TinyUsb.byteAt inst.transfer_out_buf 2 →
      ((X360.x360d_report_out_received cbs inst 3).2 ++
       (X360.x360d_report_out_received cbs
          (X360.x360d_report_out_received cbs inst 3).1 3).2).countP
        X360.Event.isLed = 1) := by
  unfold X360.x360d_report_out_received
  by_cases h : inst.led = TinyUsb.byteAt inst.transfer_out_buf 2
  · simp [htype, X360.X360_MESSAGE_TYPE_OUT_LED, X360.X360_MESSAGE_TYPE_OUT_RUMBLE, h, hcb]
  · simp [htype, X360.X360_MESSAGE_TYPE_OUT_LED, X360.X360_MESSAGE_TYPE_OUT_RUMBLE, h, hcb,
      X360.Event.isLed]

/-- Witness for C3 at a concrete bound instance receiving a concrete LED
message. -/
theorem C3_led_debounce_witness :
    Fixtures.x360CbsAll.received_led = true ∧
    TinyUsb.byteAt Fixtures.x360LedInst.transfer_out_buf 0 = X360.X360_MESSAGE_TYPE_OUT_LED ∧
    ((Fixtures.x360LedInst.led = TinyUsb.byteAt Fixtures.x360LedInst.transfer_out_buf 2 →
      X360.x360d_report_out_received Fixtures.x360CbsAll Fixtures.x360LedInst 3 =
        (Fixtures.x360LedInst, [])) ∧
    (Fixtures.x360LedInst.led ≠ TinyUsb.byteAt Fixtures.x360LedInst.transfer_out_buf 2 →
      (X360.x360d_report_out_received Fixtures.x360CbsAll Fixtures.x360LedInst 3).1.led =
        TinyUsb.byteAt Fixtures.x360LedInst.transfer_out_buf 2 ∧
      (X360.x360d_report_out_received Fixtures.x360CbsAll Fixtures.x360LedInst 3).2 =
        [X360.Event.received_led Fixtures.x360LedInst.itf_num
          (TinyUsb.byteAt Fixtures.x360LedInst.transfer_out_buf 2)]) ∧
    ((X360.x360d_report_out_received Fixtures.x360CbsAll Fixtures.x360LedInst 3).2 ++
     (X360.x360d_report_out_received Fixtures.x360CbsAll
        (X360.x360d_report_out_received Fixtures.x360CbsAll Fixtures.x360LedInst 3).1 3).2).countP
      X360.Event.isLed ≤ 1 ∧
    (Fixtures.x360LedInst.led ≠ TinyUsb.byteAt Fixtures.x360LedInst.transfer_out_buf 2 →
      ((X360.x360d_report_out_received Fixtures.x360CbsAll Fixtures.x360LedInst 3).2 ++
       (X360.x360d_report_out_received Fixtures.x360CbsAll
          (X360.x360d_report_out_received Fixtures.x360CbsAll Fixtures.x360LedInst 3).1 3).2).countP
        X360.Event.isLed = 1)) :=
  ⟨by decide, by decide,
    C3_led_debounce Fixtures.x360CbsAll Fixtures.x360LedInst (by decide) (by decide)⟩

/-- Counterexample to claim C4: an OUT transfer of 8 bytes whose message
carries type byte `0x00` but header length byte `0x09` (so its two-byte
header is not `{0x00, 0x08}`) is not ignored: the driver still invokes
`received_rumble` with the bytes at offsets 3 and 4. -/
theorem C4_counterexample :
    TinyUsb.byteAt Fixtures.x360RumbleLenInst.transfer_out_buf 1 = 0x09 ∧
    (X360.x360d_xfer_cb Fixtures.x360CbsAll Fixtures.x360RumbleLenSt 0 0x01
        TinyUsb.XFER_RESULT_SUCCESS 8).2.2.1 =
      [X360.Event.received_rumble 0 0x80 0x40] := by decide

/-- Claim C4 (amended): a successfully completed OUT transfer invokes
`received_rumble` with the bytes at offsets 3 and 4 exactly when the
message's type byte is `0x00` and the transferred count is 8 (the header
length byte is not examined); every other shape produces no rumble
callback; and the OUT endpoint is afterwards unconditionally re-armed with
the instance's OUT buffer. -/
theorem C4_rumble_dispatch_rearm (cbs : X360.Cbs) (st : X360.State)
    (rhport ep_addr xferred : Nat) (p : X360.Instance)
    (hfind : X360.get_instance_by_ep st.inst ep_addr = some p)
    (hport : rhport = p.rhport)
    (hout : ep_addr = p.ep_out)
    (hnotin : ep_addr ≠ p.ep_in)
    (hcb : cbs.received_rumble = true) :
    ((xferred = 8 ∧
        TinyUsb.byteAt p.transfer_out_buf 0 = X360.X360_MESSAGE_TYPE_OUT_RUMBLE) →
      (X360.x360d_xfer_cb cbs st rhport ep_addr TinyUsb.XFER_RESULT_SUCCESS xferred).2.2.1 =
        [X360.Event.received_rumble p.itf_num
          (TinyUsb.byteAt p.transfer_out_buf 3) (TinyUsb.byteAt p.transfer_out_buf 4)]) ∧
    (¬(xferred = 8 ∧
        TinyUsb.byteAt p.transfer_out_buf 0 = X360.X360_MESSAGE_TYPE_OUT_RUMBLE) →
      ((X360.x360d_xfer_cb cbs st rhport ep_addr TinyUsb.XFER_RESULT_SUCCESS xferred).2.2.1).countP
        X360.Event.isRumble = 0) ∧
    (X360.x360d_xfer_cb cbs st rhport ep_addr TinyUsb.XFER_RESULT_SUCCESS xferred).2.2.2 =
      some ⟨p.transfer_out_buf, X360.X360_TRANSFER_OUT_BUFFER_SIZE⟩ ∧
    (X360.x360d_xfer_cb cbs st rhport ep_addr TinyUsb.XFER_RESULT_SUCCESS xferred).1 = true := by
  subst hport hout
  unfold X360.x360d_xfer_cb
  unfold X360.x360d_report_out_received
  simp only [hfind, X360.X360_MESSAGE_TYPE_OUT_RUMBLE, X360.X360_MESSAGE_TYPE_OUT_LED]
  by_cases hrum : xferred = 8 ∧ TinyUsb.byteAt p.transfer_out_buf 0 = 0
  · simp [hrum, hnotin, hcb, TinyUsb.usbd_edpt_xfer, TinyUsb.XFER_RESULT_SUCCESS,
      X360.Event.isRumble]
  · by_cases hled : xferred = 3 ∧ TinyUsb.byteAt p.transfer_out_buf 0 = 1
    · by_cases hsame : p.led = TinyUsb.byteAt p.transfer_out_buf 2
      · simp [hrum, hled, hsame, hnotin, hcb, TinyUsb.usbd_edpt_xfer,
          TinyUsb.XFER_RESULT_SUCCESS, X360.Event.isRumble]
      · simp [hrum, hled, hsame, hnotin, hcb, TinyUsb.usbd_edpt_xfer,
          TinyUsb.XFER_RESULT_SUCCESS, X360.Event.isRumble]
    · simp [hrum, hled, hnotin, hcb, TinyUsb.usbd_edpt_xfer,
        TinyUsb.XFER_RESULT_SUCCESS, X360.Event.isRumble]

/-- Witness for C4 at a concrete bound instance with a well-formed rumble
message in its OUT buffer. -/
theorem C4_rumble_dispatch_rearm_witness :
    ((8 = 8 ∧
        TinyUsb.byteAt Fixtures.x360Inst.transfer_out_buf 0 = X360.X360_MESSAGE_TYPE_OUT_RUMBLE) →
      (X360.x360d_xfer_cb Fixtures.x360CbsAll Fixtures.x360St 0 0x01
          TinyUsb.XFER_RESULT_SUCCESS 8).2.2.1 =
        [X360.Event.received_rumble Fixtures.x360Inst.itf_num
          (TinyUsb.byteAt Fixtures.x360Inst.transfer_out_buf 3)
          (TinyUsb.byteAt Fixtures.x360Inst.transfer_out_buf 4)]) ∧
    (¬(8 = 8 ∧
        TinyUsb.byteAt Fixtures.x360Inst.transfer_out_buf 0 = X360.X360_MESSAGE_TYPE_OUT_RUMBLE) →
      ((X360.x360d_xfer_cb Fixtures.x360CbsAll Fixtures.x360St 0 0x01
          TinyUsb.XFER_RESULT_SUCCESS 8).2.2.1).countP X360.Event.isRumble = 0) ∧
    (X360.x360d_xfer_cb Fixtures.x360CbsAll Fixtures.x360St 0 0x01
        TinyUsb.XFER_RESULT_SUCCESS 8).2.2.2 =
      some ⟨Fixtures.x360Inst.transfer_out_buf, X360.X360_TRANSFER_OUT_BUFFER_SIZE⟩ ∧
    (X360.x360d_xfer_cb Fixtures.x360CbsAll Fixtures.x360St 0 0x01
        TinyUsb.XFER_RESULT_SUCCESS 8).1 = true :=
  C4_rumble_dispatch_rearm Fixtures.x360CbsAll Fixtures.x360St 0 0x01 8 Fixtures.x360Inst
    (by decide) (by decide) (by decide) (by decide) (by decide)

/-- For a bound X360 instance, `x360d_n_report` fails exactly when the IN
endpoint claim fails, and a failed call leaves the state unchanged. -/
theorem x360_report_false_iff (st : X360.State) (itf : Nat) (controls : List Nat)
    (p : X360.Instance) (hfind : X360.get_instance_by_itf st.inst itf = some p) :
    ((X360.x360d_n_report st itf controls).1 = false ↔
      (st.epIn.claimed = true ∨ st.epIn.busy = true)) ∧
    ((X360.x360d_n_report st itf controls).1 = false →
      (X360.x360d_n_report st itf controls).2.1 = st) := by
  unfold X360.x360d_n_report TinyUsb.usbd_edpt_claim
  by_cases h : (st.epIn.claimed || st.epIn.busy) = true
  · simp only [hfind, h]
    simp [Bool.or_eq_true] at h
    simp [h]
  · simp only [hfind, h]
    simp [Bool.or_eq_true] at h
    simp [h, TinyUsb.usbd_edpt_xfer, X360.X360_TRANSFER_IN_BUFFER_SIZE]

/-- For a bound HID instance called with a valid buffer,
`chidd_send_report` fails exactly when the IN endpoint claim fails, and a
failed call leaves the state unchanged. -/
theorem chidd_send_report_false_iff (st : CHid.State) (itf : Nat) (buf : List Nat)
    (len : Nat) (p : CHid.Instance)
    (hfind : CHid.get_instance_by_itf st.inst itf = some p) (hlen : len ≠ 0) :
    ((CHid.chidd_send_report st itf (some buf) len).1 = false ↔
      (st.epIn.claimed = true ∨ st.epIn.busy = true)) ∧
    ((CHid.chidd_send_report st itf (some buf) len).1 = false →
      (CHid.chidd_send_report st itf (some buf) len).2.1 = st) := by
  unfold CHid.chidd_send_report TinyUsb.usbd_edpt_claim
  by_cases h : (st.epIn.claimed || st.epIn.busy) = true
  · simp only [hfind, h]
    simp [Bool.or_eq_true] at h
    simp [h]
  · simp only [hfind, h]
    simp [Bool.or_eq_true] at h
    simp [h, hlen, TinyUsb.usbd_edpt_xfer]

/-- Counterexample to claim C5: on a bound HID instance with an idle IN
endpoint, `chidd_send_report` called with a NULL buffer returns false even
though no transfer is outstanding on the IN endpoint, and the false return
does not leave the endpoint state unchanged: the claim stays held. -/
theorem C5_counterexample :
    Fixtures.hidSt.epIn.claimed = false ∧ Fixtures.hidSt.epIn.busy = false ∧
    (CHid.chidd_send_report Fixtures.hidSt 0 none 8).1 = false ∧
    (CHid.chidd_send_report Fixtures.hidSt 0 none 8).2.1.epIn.claimed = true := by decide

/-- Claim C5 (amended): for every bound interface, `x360d_n_report`, and
`chidd_send_report` when called with a non-NULL buffer of nonzero length,
return false iff a transfer is outstanding or the claim is held on the
instance's IN endpoint, and such a false return leaves the driver state
unchanged. -/
theorem C5_send_report_busy_iff (xst : X360.State) (hst : CHid.State)
    (xitf hitf : Nat) (controls buf : List Nat) (len : Nat)
    (px : X360.Instance) (ph : CHid.Instance)
    (hfx : X360.get_instance_by_itf xst.inst xitf = some px)
    (hfh : CHid.get_instance_by_itf hst.inst hitf = some ph)
    (hlen : len ≠ 0) :
    ((X360.x360d_n_report xst xitf controls).1 = false ↔
      (xst.epIn.claimed = true ∨ xst.epIn.busy = true)) ∧
    ((X360.x360d_n_report xst xitf controls).1 = false →
      (X360.x360d_n_report xst xitf controls).2.1 = xst) ∧
    ((CHid.chidd_send_report hst hitf (some buf) len).1 = false ↔
      (hst.epIn.claimed = true ∨ hst.epIn.busy = true)) ∧
    ((CHid.chidd_send_report hst hitf (some buf) len).1 = false →
      (CHid.chidd_send_report hst hitf (some buf) len).2.1 = hst) :=
  ⟨(x360_report_false_iff xst xitf controls px hfx).1,
   (x360_report_false_iff xst xitf controls px hfx).2,
   (chidd_send_report_false_iff hst hitf buf len ph hfh hlen).1,
   (chidd_send_report_false_iff hst hitf buf len ph hfh hlen).2⟩

/-- Witness for C5 at concrete bound instances with idle IN endpoints. -/
theorem C5_send_report_busy_iff_witness :
    ((X360.x360d_n_report Fixtures.x360St 0 (List.replicate 18 0)).1 = false ↔
      (Fixtures.x360St.epIn.claimed = true ∨ Fixtures.x360St.epIn.busy = true)) ∧
    ((X360.x360d_n_report Fixtures.x360St 0 (List.replicate 18 0)).1 = false →
      (X360.x360d_n_report Fixtures.x360St 0 (List.replicate 18 0)).2.1 = Fixtures.x360St) ∧
    ((CHid.chidd_send_report Fixtures.hidSt 0 (some [1, 2, 3]) 3).1 = false ↔
      (Fixtures.hidSt.epIn.claimed = true ∨ Fixtures.hidSt.epIn.busy = true)) ∧
    ((CHid.chidd_send_report Fixtures.hidSt 0 (some [1, 2, 3]) 3).1 = false →
      (CHid.chidd_send_report Fixtures.hidSt 0 (some [1, 2, 3]) 3).2.1 = Fixtures.hidSt) :=
  C5_send_report_busy_iff Fixtures.x360St Fixtures.hidSt 0 0 (List.replicate 18 0)
    [1, 2, 3] 3 Fixtures.x360Inst Fixtures.hidInst (by decide) (by decide) (by decide)

/-- Once the IN endpoint claim is held, every `chidd_send_report` call on
that driver state fails: nothing in the driver releases the claim. -/
theorem chidd_send_report_claimed_false (st : CHid.State) (h : st.epIn.claimed = true) :
    ∀ itf r l, (CHid.chidd_send_report st itf r l).1 = false := by
  intro itf r l
  unfold CHid.chidd_send_report TinyUsb.usbd_edpt_claim
  cases hf : CHid.get_instance_by_itf st.inst itf <;> simp [hf, h]

/-- Claim C10: on a bound HID instance with an idle IN endpoint, a
`chidd_send_report` call with a NULL buffer or zero length returns false
after claiming the endpoint and overwriting the stored IN-buffer pointer
with the rejected one; the claim is never released, so every later
`chidd_send_report` on that driver state also fails. -/
theorem C10_send_report_claim_leak (st : CHid.State) (itf : Nat)
    (report : Option (List Nat)) (len : Nat) (p : CHid.Instance)
    (hfind : CHid.get_instance_by_itf st.inst itf = some p)
    (hclaim : st.epIn.claimed = false) (hbusy : st.epIn.busy = false)
    (hbad : report = none ∨ len = 0) :
    (CHid.chidd_send_report st itf report len).1 = false ∧
    (CHid.chidd_send_report st itf report len).2.1.epIn.claimed = true ∧
    (CHid.chidd_send_report st itf report len).2.1.inst.transfer_in_buf = report ∧
    (∀ itf2 report2 len2,
      (CHid.chidd_send_report
        (CHid.chidd_send_report st itf report len).2.1 itf2 report2 len2).1 = false) := by
  have hres : CHid.chidd_send_report st itf report len =
      (false,
        { st with
          inst := { p with transfer_in_buf := report }
          epIn := { st.epIn with claimed := true } },
        none) := by
    unfold CHid.chidd_send_report TinyUsb.usbd_edpt_claim
    rcases hbad with hb | hb
    · subst hb
      simp [hfind, hclaim, hbusy]
    · subst hb
      simp [hfind, hclaim, hbusy]
  refine ⟨by rw [hres], by rw [hres], by rw [hres], ?_⟩
  intro itf2 report2 len2
  apply chidd_send_report_claimed_false
  rw [hres]

/-- Witness for C10 at a concrete bound instance and a NULL buffer. -/
theorem C10_send_report_claim_leak_witness :
    (CHid.chidd_send_report Fixtures.hidSt 0 none 5).1 = false ∧
    (CHid.chidd_send_report Fixtures.hidSt 0 none 5).2.1.epIn.claimed = true ∧
    (CHid.chidd_send_report Fixtures.hidSt 0 none 5).2.1.inst.transfer_in_buf = none ∧
    (∀ itf2 report2 len2,
      (CHid.chidd_send_report
        (CHid.chidd_send_report Fixtures.hidSt 0 none 5).2.1 itf2 report2 len2).1 = false) :=
  C10_send_report_claim_leak Fixtures.hidSt 0 none 5 Fixtures.hidInst
    (by decide) (by decide) (by decide) (Or.inl rfl)

/-- A successful HID lookup returns the (single) slot itself and certifies
that the slot is bound with the requested interface number. -/
theorem chidd_lookup_inv (inst : CHid.Instance) (itf : Nat) (p : CHid.Instance)
    (h : CHid.get_instance_by_itf inst itf = some p) :
    p = inst ∧ itf = inst.itf_num ∧ (inst.ep_in ≠ 0 ∨ inst.ep_out ≠ 0) := by
  unfold CHid.get_instance_by_itf at h
  split at h <;> simp_all

/-- The HID control dispatcher forwards class-typed requests for a bound
interface to the class-specific handler. -/
theorem chidd_dispatch_class (cbs : CHid.Cbs) (st : CHid.State) (rhport stage : Nat)
    (req : TinyUsb.ControlRequest) (p : CHid.Instance)
    (hrcpt : req.recipient = TinyUsb.TUSB_REQ_RCPT_INTERFACE)
    (hty : req.reqType = TinyUsb.TUSB_REQ_TYPE_CLASS)
    (hfind : CHid.get_instance_by_itf st.inst (TinyUsb.tu_u16_low req.wIndex) = some p)
    (hport : rhport = p.rhport)
    (hitf : p.itf_num = req.wIndex) :
    CHid.chidd_control_xfer_cb cbs st rhport stage req =
      ((CHid.chidd_class_specific_request_handler cbs p stage req).1,
       { st with inst := (CHid.chidd_class_specific_request_handler cbs p stage req).2.1 },
       (CHid.chidd_class_specific_request_handler cbs p stage req).2.2) := by
  unfold CHid.chidd_control_xfer_cb
  simp [hrcpt, hty, hfind, hport, hitf, TinyUsb.TUSB_REQ_RCPT_INTERFACE,
    TinyUsb.TUSB_REQ_TYPE_STANDARD, TinyUsb.TUSB_REQ_TYPE_CLASS]

/-- A SET_IDLE request with report id 0 handled at SETUP stores the high
byte of `wValue` as the idle rate and emits the zero-length status, for any
callback table. -/
theorem chidd_set_idle_setup (cbs : CHid.Cbs) (inst : CHid.Instance)
    (req : TinyUsb.ControlRequest)
    (hbr : req.bRequest = CHid.HID_REQ_CONTROL_SET_IDLE)
    (hdir : req.direction = 0)
    (hid0 : TinyUsb.tu_u16_low req.wValue = 0) :
    (CHid.chidd_class_specific_request_handler cbs inst TinyUsb.CONTROL_STAGE_SETUP req).2.1 =
      { inst with idle_rate := TinyUsb.tu_u16_high req.wValue } ∧
    CHid.CtlEvent.control_status ∈
      (CHid.chidd_class_specific_request_handler cbs inst TinyUsb.CONTROL_STAGE_SETUP req).2.2 := by
  unfold CHid.chidd_class_specific_request_handler
  simp only [hbr, hdir, hid0, CHid.HID_REQ_CONTROL_GET_REPORT,
    CHid.HID_REQ_CONTROL_SET_REPORT, CHid.HID_REQ_CONTROL_GET_IDLE,
    CHid.HID_REQ_CONTROL_SET_IDLE, CHid.HID_REQ_CONTROL_GET_PROTOCOL,
    CHid.HID_REQ_CONTROL_SET_PROTOCOL, TinyUsb.CONTROL_STAGE_SETUP]
  norm_num
  cases hcb : cbs.set_idle with
  | none => simp [hcb]
  | some cb =>
    simp only [hcb]
    split <;> simp

/-- A SET_PROTOCOL request handled at SETUP stores the low byte of
`wValue` as the protocol mode and emits the zero-length status, for any
callback table. -/
theorem chidd_set_protocol_setup (cbs : CHid.Cbs) (inst : CHid.Instance)
    (req : TinyUsb.ControlRequest)
    (hbr : req.bRequest = CHid.HID_REQ_CONTROL_SET_PROTOCOL)
    (hdir : req.direction = 0) :
    (CHid.chidd_class_specific_request_handler cbs inst TinyUsb.CONTROL_STAGE_SETUP req).2.1 =
      { inst with protocol_mode := TinyUsb.tu_u16_low req.wValue } ∧
    CHid.CtlEvent.control_status ∈
      (CHid.chidd_class_specific_request_handler cbs inst TinyUsb.CONTROL_STAGE_SETUP req).2.2 := by
  unfold CHid.chidd_class_specific_request_handler
  simp only [hbr, hdir, CHid.HID_REQ_CONTROL_GET_REPORT,
    CHid.HID_REQ_CONTROL_SET_REPORT, CHid.HID_REQ_CONTROL_GET_IDLE,
    CHid.HID_REQ_CONTROL_SET_IDLE, CHid.HID_REQ_CONTROL_GET_PROTOCOL,
    CHid.HID_REQ_CONTROL_SET_PROTOCOL, TinyUsb.CONTROL_STAGE_SETUP]
  norm_num
  cases hcb : cbs.set_protocol with
  | none => simp [hcb]
  | some cb =>
    simp only [hcb]
    split <;> simp

/-- A GET_PROTOCOL request handled at SETUP replies with exactly one byte
holding the stored protocol mode. -/
theorem chidd_get_protocol_setup (cbs : CHid.Cbs) (inst : CHid.Instance)
    (req : TinyUsb.ControlRequest)
    (hbr : req.bRequest = CHid.HID_REQ_CONTROL_GET_PROTOCOL)
    (hdir : req.direction = 1) :
    CHid.chidd_class_specific_request_handler cbs inst TinyUsb.CONTROL_STAGE_SETUP req =
      (true, inst, [CHid.CtlEvent.control_xfer [inst.protocol_mode] 1]) := by
  unfold CHid.chidd_class_specific_request_handler
  simp only [hbr, hdir, CHid.HID_REQ_CONTROL_GET_REPORT,
    CHid.HID_REQ_CONTROL_SET_REPORT, CHid.HID_REQ_CONTROL_GET_IDLE,
    CHid.HID_REQ_CONTROL_SET_IDLE, CHid.HID_REQ_CONTROL_GET_PROTOCOL,
    CHid.HID_REQ_CONTROL_SET_PROTOCOL, TinyUsb.CONTROL_STAGE_SETUP]
  norm_num

/-- Claim C6: a SET_IDLE class request on a bound HID interface at SETUP
sends the zero-length status and, when the report id (low byte of wValue)
is 0, stores the high byte of wValue as the instance's idle rate; the
store happens for every callback table, so it persists whether or not a
set_idle delegate is registered. -/
theorem C6_set_idle_stores (cbs : CHid.Cbs) (st : CHid.State) (rhport : Nat)
    (req : TinyUsb.ControlRequest) (p : CHid.Instance)
    (hrcpt : req.recipient = TinyUsb.TUSB_REQ_RCPT_INTERFACE)
    (hty : req.reqType = TinyUsb.TUSB_REQ_TYPE_CLASS)
    (hbr : req.bRequest = CHid.HID_REQ_CONTROL_SET_IDLE)
    (hdir : req.direction = 0)
    (hfind : CHid.get_instance_by_itf st.inst (TinyUsb.tu_u16_low req.wIndex) = some p)
    (hport : rhport = p.rhport)
    (hitf : p.itf_num = req.wIndex)
    (hid0 : TinyUsb.tu_u16_low req.wValue = 0) :
    CHid.CtlEvent.control_status ∈
      (CHid.chidd_control_xfer_cb cbs st rhport TinyUsb.CONTROL_STAGE_SETUP req).2.2 ∧
    (CHid.chidd_control_xfer_cb cbs st rhport TinyUsb.CONTROL_STAGE_SETUP req).2.1.inst.idle_rate =
      TinyUsb.tu_u16_high req.wValue := by
  rw [chidd_dispatch_class cbs st rhport TinyUsb.CONTROL_STAGE_SETUP req p hrcpt hty hfind
    hport hitf]
  have h := chidd_set_idle_setup cbs p req hbr hdir hid0
  refine ⟨h.2, ?_⟩
  simp [h.1]

/-- Witness for C6 with `wValue = 0xFF00` and no set_idle delegate. -/
theorem C6_set_idle_stores_witness :
    CHid.CtlEvent.control_status ∈
      (CHid.chidd_control_xfer_cb Fixtures.hidCbsNone Fixtures.hidSt 0
        TinyUsb.CONTROL_STAGE_SETUP Fixtures.setIdleReq).2.2 ∧
    (CHid.chidd_control_xfer_cb Fixtures.hidCbsNone Fixtures.hidSt 0
        TinyUsb.CONTROL_STAGE_SETUP Fixtures.setIdleReq).2.1.inst.idle_rate =
      TinyUsb.tu_u16_high Fixtures.setIdleReq.wValue :=
  C6_set_idle_stores Fixtures.hidCbsNone Fixtures.hidSt 0 Fixtures.setIdleReq Fixtures.hidInst
    rfl rfl rfl rfl (by decide) rfl (by decide) (by decide)

/-- Every successful `chidd_open` leaves the bound instance in Report
protocol mode. -/
theorem chidd_open_default_mode (cbs : CHid.Cbs) (st : CHid.State) (rhport : Nat)
    (d : TinyUsb.InterfaceDesc) (hd : List Nat) (eps : List TinyUsb.EndpointDesc)
    (ml : Nat) (h : (CHid.chidd_open cbs st rhport d hd eps ml).1 ≠ 0) :
    (CHid.chidd_open cbs st rhport d hd eps ml).2.1.inst.protocol_mode =
      CHid.HID_PROTOCOL_REPORT := by
  unfold CHid.chidd_open at h ⊢
  repeat' split
  all_goals simp_all [CHid.HID_PROTOCOL_REPORT]
  all_goals (split <;> simp_all [CHid.HID_PROTOCOL_REPORT])

/-- Claim C7: SET_PROTOCOL with `wValue = 0` at SETUP on a bound HID
interface sends the status and stores protocol mode Boot (0); a subsequent
GET_PROTOCOL replies with exactly one byte equal to the stored mode, hence
0; and every successful `chidd_open` defaults the mode to Report (1). -/
theorem C7_protocol_boot_roundtrip (cbs : CHid.Cbs) (st : CHid.State) (rhport : Nat)
    (req_set req_get : TinyUsb.ControlRequest) (p : CHid.Instance)
    (hrcpt : req_set.recipient = TinyUsb.TUSB_REQ_RCPT_INTERFACE)
    (hty : req_set.reqType = TinyUsb.TUSB_REQ_TYPE_CLASS)
    (hbr : req_set.bRequest = CHid.HID_REQ_CONTROL_SET_PROTOCOL)
    (hdir : req_set.direction = 0)
    (hval : req_set.wValue = 0)
    (hfind : CHid.get_instance_by_itf st.inst (TinyUsb.tu_u16_low req_set.wIndex) = some p)
    (hport : rhport = p.rhport)
    (hitf : p.itf_num = req_set.wIndex)
    (hrcpt2 : req_get.recipient = TinyUsb.TUSB_REQ_RCPT_INTERFACE)
    (hty2 : req_get.reqType = TinyUsb.TUSB_REQ_TYPE_CLASS)
    (hbr2 : req_get.bRequest = CHid.HID_REQ_CONTROL_GET_PROTOCOL)
    (hdir2 : req_get.direction = 1)
    (hidx2 : req_get.wIndex = req_set.wIndex)
    (cbs2 : CHid.Cbs) (st0 : CHid.State) (rh0 : Nat) (d : TinyUsb.InterfaceDesc)
    (hd : List Nat) (eps : List TinyUsb.EndpointDesc) (ml : Nat) :
    CHid.CtlEvent.control_status ∈
      (CHid.chidd_control_xfer_cb cbs st rhport TinyUsb.CONTROL_STAGE_SETUP req_set).2.2 ∧
    (CHid.chidd_control_xfer_cb cbs st rhport
        TinyUsb.CONTROL_STAGE_SETUP req_set).2.1.inst.protocol_mode =
      CHid.HID_PROTOCOL_BOOT ∧
    (CHid.chidd_control_xfer_cb cbs
        (CHid.chidd_control_xfer_cb cbs st rhport TinyUsb.CONTROL_STAGE_SETUP req_set).2.1
        rhport TinyUsb.CONTROL_STAGE_SETUP req_get).1 = true ∧
    (CHid.chidd_control_xfer_cb cbs
        (CHid.chidd_control_xfer_cb cbs st rhport TinyUsb.CONTROL_STAGE_SETUP req_set).2.1
        rhport TinyUsb.CONTROL_STAGE_SETUP req_get).2.2 =
      [CHid.CtlEvent.control_xfer [CHid.HID_PROTOCOL_BOOT] 1] ∧
    ((CHid.chidd_open cbs2 st0 rh0 d hd eps ml).1 ≠ 0 →
      (CHid.chidd_open cbs2 st0 rh0 d hd eps ml).2.1.inst.protocol_mode =
        CHid.HID_PROTOCOL_REPORT) := by
  obtain ⟨hp, hitfeq, heps⟩ := chidd_lookup_inv _ _ _ hfind
  subst hp
  have hval0 : TinyUsb.tu_u16_low req_set.wValue = 0 := by
    simp [hval, TinyUsb.tu_u16_low]
  have hdisp := chidd_dispatch_class cbs st rhport TinyUsb.CONTROL_STAGE_SETUP req_set
    st.inst hrcpt hty hfind hport hitf
  have hsp := chidd_set_protocol_setup cbs st.inst req_set hbr hdir
  have hstate : (CHid.chidd_control_xfer_cb cbs st rhport
      TinyUsb.CONTROL_STAGE_SETUP req_set).2.1 =
      { st with inst := { st.inst with protocol_mode := 0 } } := by
    rw [hdisp]
    simp [hsp.1, hval0]
  have hmem : CHid.CtlEvent.control_status ∈
      (CHid.chidd_control_xfer_cb cbs st rhport TinyUsb.CONTROL_STAGE_SETUP req_set).2.2 := by
    rw [hdisp]
    exact hsp.2
  have hfind2 : CHid.get_instance_by_itf
      ({ st.inst with protocol_mode := 0 } : CHid.Instance)
      (TinyUsb.tu_u16_low req_get.wIndex) =
      some { st.inst with protocol_mode := 0 } := by
    unfold CHid.get_instance_by_itf
    simp only [hidx2]
    simp [hitfeq, heps]
  have hdisp2 := chidd_dispatch_class cbs { st with inst := { st.inst with protocol_mode := 0 } }
    rhport TinyUsb.CONTROL_STAGE_SETUP req_get { st.inst with protocol_mode := 0 }
    hrcpt2 hty2 hfind2 hport (by simp [hitf, hidx2])
  have hget := chidd_get_protocol_setup cbs
    ({ st.inst with protocol_mode := 0 } : CHid.Instance) req_get hbr2 hdir2
  refine ⟨hmem, by rw [hstate]; rfl, ?_, ?_, chidd_open_default_mode cbs2 st0 rh0 d hd eps ml⟩
  · rw [hstate, hdisp2, hget]
  · rw [hstate, hdisp2, hget]
    simp [CHid.HID_PROTOCOL_BOOT]

/-- Witness for C7 at a concrete bound instance with concrete SET/GET
protocol requests and a concrete successful open. -/
theorem C7_protocol_boot_roundtrip_witness :
    CHid.CtlEvent.control_status ∈
      (CHid.chidd_control_xfer_cb Fixtures.hidCbsNone Fixtures.hidSt 0
        TinyUsb.CONTROL_STAGE_SETUP Fixtures.setProtocolReq).2.2 ∧
    (CHid.chidd_control_xfer_cb Fixtures.hidCbsNone Fixtures.hidSt 0
        TinyUsb.CONTROL_STAGE_SETUP Fixtures.setProtocolReq).2.1.inst.protocol_mode =
      CHid.HID_PROTOCOL_BOOT ∧
    (CHid.chidd_control_xfer_cb Fixtures.hidCbsNone
        (CHid.chidd_control_xfer_cb Fixtures.hidCbsNone Fixtures.hidSt 0
          TinyUsb.CONTROL_STAGE_SETUP Fixtures.setProtocolReq).2.1
        0 TinyUsb.CONTROL_STAGE_SETUP Fixtures.getProtocolReq).1 = true ∧
    (CHid.chidd_control_xfer_cb Fixtures.hidCbsNone
        (CHid.chidd_control_xfer_cb Fixtures.hidCbsNone Fixtures.hidSt 0
          TinyUsb.CONTROL_STAGE_SETUP Fixtures.setProtocolReq).2.1
        0 TinyUsb.CONTROL_STAGE_SETUP Fixtures.getProtocolReq).2.2 =
      [CHid.CtlEvent.control_xfer [CHid.HID_PROTOCOL_BOOT] 1] ∧
    ((CHid.chidd_open Fixtures.hidCbsNone ⟨CHid.reset_instance, ⟨false, false⟩, ⟨false, false⟩⟩
        0 ⟨0, 2, 3, 0, 0⟩ [9, 0x21, 0x11, 1, 0, 1, 0x22, 63, 0]
        [⟨0x82, true⟩, ⟨0x02, true⟩] 32).1 ≠ 0 →
      (CHid.chidd_open Fixtures.hidCbsNone ⟨CHid.reset_instance, ⟨false, false⟩, ⟨false, false⟩⟩
        0 ⟨0, 2, 3, 0, 0⟩ [9, 0x21, 0x11, 1, 0, 1, 0x22, 63, 0]
        [⟨0x82, true⟩, ⟨0x02, true⟩] 32).2.1.inst.protocol_mode =
        CHid.HID_PROTOCOL_REPORT) :=
  C7_protocol_boot_roundtrip Fixtures.hidCbsNone Fixtures.hidSt 0
    Fixtures.setProtocolReq Fixtures.getProtocolReq Fixtures.hidInst
    rfl rfl rfl rfl rfl (by decide) rfl (by decide)
    rfl rfl rfl rfl rfl
    Fixtures.hidCbsNone ⟨CHid.reset_instance, ⟨false, false⟩, ⟨false, false⟩⟩
    0 ⟨0, 2, 3, 0, 0⟩ [9, 0x21, 0x11, 1, 0, 1, 0x22, 63, 0]
    [⟨0x82, true⟩, ⟨0x02, true⟩] 32

/-- Claim C8: the MS OS 1.0 responder handles a request iff it is
vendor-typed, carries the configured vendor code, addresses wIndex 0x04 or
0x05, and the corresponding provider callback is registered; it replies
only at SETUP, the reply is the provider's bytes, and every unhandled case
produces no reply (the caller stalls). -/
theorem C8_ms_os_responder (cbs : MsOs.Cbs) (stage : Nat) (req : TinyUsb.ControlRequest) :
    ((MsOs.ms_os_control_xfer_cb cbs stage req).1 = true ↔
      (req.reqType = TinyUsb.TUSB_REQ_TYPE_VENDOR ∧
       req.bRequest = MsOs.MS_OS_DESCRIPTOR_VENDORCODE ∧
       ((req.wIndex = MsOs.MS_EXTENDED_COMPATID_DESCRIPTOR ∧ cbs.compatid.isSome = true) ∨
        (req.wIndex = MsOs.MS_EXTENDED_PROPERTIES_DESCRIPTOR ∧ cbs.property.isSome = true)))) ∧
    ((MsOs.ms_os_control_xfer_cb cbs stage req).2.isSome = true →
      stage = TinyUsb.CONTROL_STAGE_SETUP) ∧
    (stage = TinyUsb.CONTROL_STAGE_SETUP →
      req.reqType = TinyUsb.TUSB_REQ_TYPE_VENDOR →
      req.bRequest = MsOs.MS_OS_DESCRIPTOR_VENDORCODE →
      (req.wIndex = MsOs.MS_EXTENDED_COMPATID_DESCRIPTOR →
        (MsOs.ms_os_control_xfer_cb cbs stage req).2 = cbs.compatid) ∧
      (req.wIndex = MsOs.MS_EXTENDED_PROPERTIES_DESCRIPTOR →
        (MsOs.ms_os_control_xfer_cb cbs stage req).2 = cbs.property)) ∧
    ((MsOs.ms_os_control_xfer_cb cbs stage req).1 = false →
      (MsOs.ms_os_control_xfer_cb cbs stage req).2 = none) := by
  unfold MsOs.ms_os_control_xfer_cb
  by_cases h1 : req.reqType = TinyUsb.TUSB_REQ_TYPE_VENDOR
  case neg => simp [h1]
  by_cases h2 : req.bRequest = MsOs.MS_OS_DESCRIPTOR_VENDORCODE
  case neg => simp [h1, h2]
  by_cases h4 : req.wIndex = MsOs.MS_EXTENDED_COMPATID_DESCRIPTOR
  · cases hc : cbs.compatid with
    | none =>
      simp [h1, h2, h4, hc, MsOs.MS_EXTENDED_COMPATID_DESCRIPTOR,
        MsOs.MS_EXTENDED_PROPERTIES_DESCRIPTOR]
    | some r =>
      by_cases hst : stage = TinyUsb.CONTROL_STAGE_SETUP
      · simp [h1, h2, h4, hc, hst, MsOs.MS_EXTENDED_COMPATID_DESCRIPTOR,
          MsOs.MS_EXTENDED_PROPERTIES_DESCRIPTOR]
      · simp [h1, h2, h4, hc, hst, MsOs.MS_EXTENDED_COMPATID_DESCRIPTOR,
          MsOs.MS_EXTENDED_PROPERTIES_DESCRIPTOR]
  · by_cases h5 : req.wIndex = MsOs.MS_EXTENDED_PROPERTIES_DESCRIPTOR
    · cases hp : cbs.property with
      | none =>
        simp [h1, h2, h4, h5, hp, MsOs.MS_EXTENDED_COMPATID_DESCRIPTOR,
          MsOs.MS_EXTENDED_PROPERTIES_DESCRIPTOR]
      | some r =>
        by_cases hst : stage = TinyUsb.CONTROL_STAGE_SETUP
        · simp [h1, h2, h4, h5, hp, hst, MsOs.MS_EXTENDED_COMPATID_DESCRIPTOR,
            MsOs.MS_EXTENDED_PROPERTIES_DESCRIPTOR]
        · simp [h1, h2, h4, h5, hp, hst, MsOs.MS_EXTENDED_COMPATID_DESCRIPTOR,
            MsOs.MS_EXTENDED_PROPERTIES_DESCRIPTOR]
    · simp [h1, h2, h4, h5]

/-- Witness for C8: a compat-ID request at SETUP with a registered provider
is handled and replies with the provider's bytes. -/
theorem C8_ms_os_responder_witness :
    ((MsOs.ms_os_control_xfer_cb ⟨some ([0x28, 0, 0, 0], 0x28), none⟩
        TinyUsb.CONTROL_STAGE_SETUP
        { direction := 1, reqType := 2, recipient := 0, bRequest := 0x42
          wValue := 0, wIndex := 4, wLength := 0x28 }).1 = true ↔
      (({ direction := 1, reqType := 2, recipient := 0, bRequest := 0x42
          wValue := 0, wIndex := 4, wLength := 0x28 } : TinyUsb.ControlRequest).reqType =
            TinyUsb.TUSB_REQ_TYPE_VENDOR ∧
       ({ direction := 1, reqType := 2, recipient := 0, bRequest := 0x42
          wValue := 0, wIndex := 4, wLength := 0x28 } : TinyUsb.ControlRequest).bRequest =
            MsOs.MS_OS_DESCRIPTOR_VENDORCODE ∧
       ((({ direction := 1, reqType := 2, recipient := 0, bRequest := 0x42
            wValue := 0, wIndex := 4, wLength := 0x28 } : TinyUsb.ControlRequest).wIndex =
              MsOs.MS_EXTENDED_COMPATID_DESCRIPTOR ∧
          (some (([0x28, 0, 0, 0] : List Nat), (0x28 : Nat))).isSome = true) ∨
        (({ direction := 1, reqType := 2, recipient := 0, bRequest := 0x42
            wValue := 0, wIndex := 4, wLength := 0x28 } : TinyUsb.ControlRequest).wIndex =
              MsOs.MS_EXTENDED_PROPERTIES_DESCRIPTOR ∧
          (none : Option (List Nat × Nat)).isSome = true)))) →
    (MsOs.ms_os_control_xfer_cb ⟨some ([0x28, 0, 0, 0], 0x28), none⟩
        TinyUsb.CONTROL_STAGE_SETUP
        { direction := 1, reqType := 2, recipient := 0, bRequest := 0x42
          wValue := 0, wIndex := 4, wLength := 0x28 }).1 = true := by
  intro h
  exact h.mpr ⟨rfl, rfl, Or.inl ⟨rfl, rfl⟩⟩

/-- Claim C9: after a reset the stored LED animation is `X360_LED_ALL_OFF`;
any successful open preserves it, so the first LED OUT message carrying
animation code 0x00 is treated as unchanged and dropped silently with no
`received_led` invocation and no state change. -/
theorem C9_reset_led_all_off (cbs : X360.Cbs) (rhport : Nat) (d : TinyUsb.InterfaceDesc)
    (cdt : Nat) (eps : List TinyUsb.EndpointDesc) (ml : Nat)
    (epIn epOut : TinyUsb.EndpointState)
    (hopen : (X360.x360d_open ⟨X360.reset_instance, epIn, epOut⟩ rhport d cdt eps ml).1 ≠ 0) :
    (X360.x360d_open ⟨X360.reset_instance, epIn, epOut⟩ rhport d cdt eps ml).2.1.inst.led =
      X360.X360_LED_ALL_OFF ∧
    X360.x360d_report_out_received cbs
      { (X360.x360d_open ⟨X360.reset_instance, epIn, epOut⟩ rhport d cdt eps ml).2.1.inst with
        transfer_out_buf := [0x01, 0x03, 0x00, 0, 0, 0, 0, 0] } 3 =
      ({ (X360.x360d_open ⟨X360.reset_instance, epIn, epOut⟩ rhport d cdt eps ml).2.1.inst with
        transfer_out_buf := [0x01, 0x03, 0x00, 0, 0, 0, 0, 0] }, []) := by
  have hled : (X360.x360d_open ⟨X360.reset_instance, epIn, epOut⟩
      rhport d cdt eps ml).2.1.inst.led = 0 := by
    unfold X360.x360d_open at hopen ⊢
    simp only [X360.get_free_instance, X360.reset_instance] at hopen ⊢
    norm_num at hopen ⊢
    repeat' split
    all_goals simp_all
  refine ⟨hled, ?_⟩
  unfold X360.x360d_report_out_received
  simp [hled, TinyUsb.byteAt, X360.X360_MESSAGE_TYPE_OUT_RUMBLE,
    X360.X360_MESSAGE_TYPE_OUT_LED]

/-- Witness for C9 at a concrete successful open of an XInput interface. -/
theorem C9_reset_led_all_off_witness :
    (X360.x360d_open ⟨X360.reset_instance, ⟨false, false⟩, ⟨false, false⟩⟩ 0
        ⟨0, 2, 0xFF, 0x5D, 0x01⟩ 0x21 [⟨0x81, true⟩, ⟨0x01, true⟩] 40).2.1.inst.led =
      X360.X360_LED_ALL_OFF ∧
    X360.x360d_report_out_received Fixtures.x360CbsAll
      { (X360.x360d_open ⟨X360.reset_instance, ⟨false, false⟩, ⟨false, false⟩⟩ 0
          ⟨0, 2, 0xFF, 0x5D, 0x01⟩ 0x21 [⟨0x81, true⟩, ⟨0x01, true⟩] 40).2.1.inst with
        transfer_out_buf := [0x01, 0x03, 0x00, 0, 0, 0, 0, 0] } 3 =
      ({ (X360.x360d_open ⟨X360.reset_instance, ⟨false, false⟩, ⟨false, false⟩⟩ 0
          ⟨0, 2, 0xFF, 0x5D, 0x01⟩ 0x21 [⟨0x81, true⟩, ⟨0x01, true⟩] 40).2.1.inst with
        transfer_out_buf := [0x01, 0x03, 0x00, 0, 0, 0, 0, 0] }, []) :=
  C9_reset_led_all_off Fixtures.x360CbsAll 0 ⟨0, 2, 0xFF, 0x5D, 0x01⟩ 0x21
    [⟨0x81, true⟩, ⟨0x01, true⟩] 40 ⟨false, false⟩ ⟨false, false⟩ (by decide)
